import Mathlib

/-!
Verification development for the Qwen2.5 chat completion service
(`src/chat_completion.py`, `src/model_manager.py`, `src/tokenizer_manager.py`).

The Python source is shallowly embedded: pure fragments become Lean
functions; stateful methods become explicit state-passing functions over a
record of the manager's in-memory fields, an abstract file-system record,
and an environment record describing the behaviour of the outside world
(child process, sockets, log file) during the call.  Observable side
effects (launching, signalling, file removal, wire writes) are collected
into explicit event lists.
-/

namespace Qwen

/- ===================================================================
   Python value model, for functions whose arguments are dynamically
   typed (`validate_messages` receives arbitrary JSON-decoded values).
   =================================================================== -/

/-- A Python value as seen by `chat_completion.validate_messages`:
strings, ints, booleans, `None`, dicts and lists. -/
inductive PyVal where
  | str (s : String)
  | int (n : Int)
  | bool (b : Bool)
  | none
  | dict (fields : List (String × PyVal))
  | list (xs : List PyVal)

/-- Dictionary lookup, first match (Python dicts cannot hold duplicate
keys, so association lists reaching these functions are duplicate-free). -/
def pyDictGet (fields : List (String × PyVal)) (key : String) : Option PyVal :=
  match fields with
  | [] => Option.none
  | (k, v) :: rest => if k = key then some v else pyDictGet rest key

/-- The allowed chat roles, `["system", "user", "assistant"]` in
`chat_completion.py`. -/
def qwenRoles : List String := ["system", "user", "assistant"]

/-- Embedding of the per-message checks inside
`chat_completion.validate_messages`: the element must be a dict, must have
`role` and `content` keys, `msg["role"]` must be in the allowed role list
(so in particular a string), and `msg["content"]` must be a string. -/
def isValidMessage (msg : PyVal) : Bool :=
  match msg with
  | PyVal.dict fields =>
    (pyDictGet fields "role").isSome &&
    (pyDictGet fields "content").isSome &&
    (match pyDictGet fields "role" with
     | some (PyVal.str r) => qwenRoles.contains r
     | _ => false) &&
    (match pyDictGet fields "content" with
     | some (PyVal.str _) => true
     | _ => false)
  | _ => false

/-- Embedding of `chat_completion.validate_messages`: a falsy or non-list
argument is rejected, otherwise every element must pass the per-message
checks. -/
def validate_messages (messages : PyVal) : Bool :=
  match messages with
  | PyVal.list msgs => !msgs.isEmpty && msgs.all isValidMessage
  | _ => false

/-- String lookup with default, embedding `message.get(key, "")` for
messages at the annotated type `Dict[str, str]`. -/
def dictGetD (fields : List (String × String)) (key : String) (dflt : String) : String :=
  match fields with
  | [] => dflt
  | (k, v) :: rest => if k = key then v else dictGetD rest key dflt

/-- Embedding of `chat_completion.apply_chat_template_local` at its
annotated argument type `List[Dict[str, str]]`: each message is rendered
as an `im_start`/`im_end` block; a role outside the allowed list is
silently re-labelled `"user"`. -/
def apply_chat_template_local (messages : List (List (String × String)))
    (add_generation_prompt : Bool := true) : String :=
  let prompt_parts := messages.map (fun message =>
    let role0 := dictGetD message "role" ""
    let content := dictGetD message "content" ""
    let role := if qwenRoles.contains role0 then role0 else "user"
    "<|im_start|>" ++ role ++ "\n" ++ content ++ "<|im_end|>")
  let prompt := String.intercalate "\n" prompt_parts
  if add_generation_prompt then prompt ++ "\n<|im_start|>assistant\n" else prompt

/- Claim-side validity predicate for C10, following the claim's words:
the argument is a non-empty list in which every element is a dictionary
that has both a role key and a content key, the role is one of the three
allowed roles, and the content is a string. -/

/-- Per-message validity as C10 states it. -/
def claimMessageOk (m : PyVal) : Bool :=
  match m with
  | PyVal.dict fields =>
    (match pyDictGet fields "role" with
     | some (PyVal.str r) => qwenRoles.contains r
     | _ => false) &&
    (match pyDictGet fields "content" with
     | some (PyVal.str _) => true
     | _ => false)
  | _ => false

/-- List-level validity as C10 states it. -/
def claimMessagesOk (v : PyVal) : Bool :=
  match v with
  | PyVal.list msgs => !msgs.isEmpty && msgs.all claimMessageOk
  | _ => false

/- ===================================================================
   Configuration (`config.py`): the fields consumed by the managers,
   with the defaults hard-coded in `Config`'s property getters.
   Machine floats carry exact short decimals here, so they are modelled
   as rationals.
   =================================================================== -/

/-- The `model.ipc_type` configuration value: `"socket"` or `"tcp"`. -/
inductive IpcType where
  | socket
  | tcp
  deriving Repr, DecidableEq

/-- The configuration fields `model_manager.py` reads (sampling defaults
and IPC transport choice), with the defaults from `config.py`. -/
structure Config where
  model_ipc_type : IpcType := IpcType.socket
  default_temperature : ℚ := mkRat 7 10
  default_top_k : Int := 40
  default_top_p : ℚ := mkRat 9 10
  default_max_tokens : Int := 512
  default_repeat_penalty : ℚ := mkRat 11 10
  deriving Repr, DecidableEq

/-- A configuration holding exactly the `config.py` defaults. -/
def defaultConfig : Config := {}

/- ===================================================================
   Sampling parameters (`ModelManager.generate` lines 259-266).
   =================================================================== -/

/-- The five sampling knobs after defaulting, as placed into the
`params` dict of the request (insertion order: temperature, top_k, top_p,
max_tokens, repeat_penalty). -/
structure SamplingParams where
  temperature : ℚ
  top_k : Int
  top_p : ℚ
  max_tokens : Int
  repeat_penalty : ℚ
  deriving Repr, DecidableEq

/-- The caller-supplied optional arguments of `ModelManager.generate`. -/
structure GenArgs where
  temperature : Option ℚ := Option.none
  top_k : Option Int := Option.none
  top_p : Option ℚ := Option.none
  max_tokens : Option Int := Option.none
  repeat_penalty : Option ℚ := Option.none
  deriving Repr, DecidableEq

/-- Python's `x or default` for an optional float argument: `None` and
the falsy value `0.0` are both replaced by the default. -/
def pyOrFloat (x : Option ℚ) (dflt : ℚ) : ℚ :=
  match x with
  | Option.none => dflt
  | some v => if v = 0 then dflt else v

/-- Python's `x or default` for an optional int argument: `None` and the
falsy value `0` are both replaced by the default. -/
def pyOrInt (x : Option Int) (dflt : Int) : Int :=
  match x with
  | Option.none => dflt
  | some v => if v = 0 then dflt else v

/-- The `params` dict construction in `ModelManager.generate`:
`temperature or self.config.default_temperature`, and so on for each
field. -/
def fillParams (cfg : Config) (a : GenArgs) : SamplingParams :=
  { temperature := pyOrFloat a.temperature cfg.default_temperature
    top_k := pyOrInt a.top_k cfg.default_top_k
    top_p := pyOrFloat a.top_p cfg.default_top_p
    max_tokens := pyOrInt a.max_tokens cfg.default_max_tokens
    repeat_penalty := pyOrFloat a.repeat_penalty cfg.default_repeat_penalty }

/- ===================================================================
   Readiness wait (`ModelManager._wait_for_ready`, lines 109-160).
   Each loop iteration observes the outside world: whether the child has
   exited, whether the log file exists and what it holds, and whether a
   probe connection succeeds.  Connectivity is modelled as stable within
   one 2-second iteration: the `_can_connect()` call made inside the
   pattern branch and the unconditional one at the end of the iteration
   see the same answer.
   =================================================================== -/

/-- The success phrases searched for in the model log. -/
def successPatterns : List String :=
  ["LLM init ok", "Model loaded successfully", "Ready to accept requests", "Server listening"]

/-- Whether `need` occurs as a contiguous sublist, scanning positions
left to right. -/
def containsSublist (need : List Char) : List Char → Bool
  | [] => need.isEmpty
  | c :: rest => need.isPrefixOf (c :: rest) || containsSublist need rest

/-- Python's `needle in haystack` for strings. -/
def strContains (haystack needle : String) : Bool :=
  containsSublist needle.data haystack.data

/-- Whether the accumulated log text holds any success phrase. -/
def logHasAnyPattern (content : String) : Bool :=
  successPatterns.any (fun p => strContains content p)

/-- What one iteration of the `_wait_for_ready` polling loop observes. -/
structure PollObs where
  processExited : Bool
  log_exists : Bool
  logReadOk : Bool := true
  log_content : String := ""
  can_connect : Bool
  deriving Repr, DecidableEq

/-- Outcome of a single polling iteration. -/
inductive WaitStep where
  | ready
  | died
  | cont
  deriving Repr, DecidableEq

/-- One iteration of the `_wait_for_ready` loop body: first the liveness
check (`self.process and self.process.poll() is not None`), then the
log-pattern branch (which on a pattern hit additionally requires
`_can_connect()`), then the unconditional `_can_connect()` fallback. -/
def waitIter (hasProcess : Bool) (obs : PollObs) : WaitStep :=
  if hasProcess && obs.processExited then WaitStep.died
  else if obs.log_exists && obs.logReadOk && logHasAnyPattern obs.log_content
      && obs.can_connect then WaitStep.ready
  else if obs.can_connect then WaitStep.ready
  else WaitStep.cont

/-- How the readiness wait ended. -/
inductive WaitOutcome where
  | ready
  | died
  | timeout
  deriving Repr, DecidableEq

/-- The `_wait_for_ready` loop over a finite trace of observations; an
exhausted trace is the startup timeout. -/
def waitOutcome (hasProcess : Bool) : List PollObs → WaitOutcome
  | [] => WaitOutcome.timeout
  | obs :: rest =>
    match waitIter hasProcess obs with
    | WaitStep.ready => WaitOutcome.ready
    | WaitStep.died => WaitOutcome.died
    | WaitStep.cont => waitOutcome hasProcess rest

/-- `_wait_for_ready`'s boolean result: `True` only on the ready outcome. -/
def waitForReady (hasProcess : Bool) (trace : List PollObs) : Bool :=
  match waitOutcome hasProcess trace with
  | WaitOutcome.ready => true
  | _ => false

/- ===================================================================
   Manager state, file-system artefacts and observable effects.
   =================================================================== -/

/-- The in-memory fields of `ModelManager`: `self.process` (as an
optional PID), `self._is_running`, `self._is_ready`. -/
structure MMState where
  process : Option Nat := Option.none
  is_running : Bool := false
  is_ready : Bool := false
  deriving Repr, DecidableEq

/-- The on-disk artefacts the model manager owns. -/
structure FS where
  pidFileExists : Bool := false
  socketFileExists : Bool := false
  deriving Repr, DecidableEq

/-- Observable side effects of manager operations.  The group-signalling
effects are part of the observation vocabulary so that claims about
process-group escalation can be stated; the embedded code emits only the
single-process signals (`Popen.terminate` / `Popen.kill`). -/
inductive Effect where
  | launchProcess (pid : Nat)
  | writePidFile (pid : Nat)
  | setReadyTrue
  | sigtermProcess
  | sigkillProcess
  | sigtermGroup
  | sigkillGroup
  | removePidFile
  | removeSocketFile
  deriving Repr, DecidableEq

/-- Behaviour of the child process during a `stop()` call: whether it
exits within the grace period after SIGTERM, and whether the
signalling call itself raises. -/
structure StopEnv where
  exitsWithinGrace : Bool := true
  terminateRaises : Bool := false
  deriving Repr, DecidableEq

/-- Embedding of `ModelManager.stop` (lines 191-229): early return when no
process handle; SIGTERM, then on a 15-second timeout SIGKILL, both on the
single `Popen` handle; the `finally` block clears the in-memory fields and
unlinks the PID file and (for the socket transport) the socket file on
every path, including the path where signalling raised. -/
def ModelManager.stop (cfg : Config) (st : MMState) (fs : FS) (env : StopEnv) :
    MMState × FS × List Effect :=
  match st.process with
  | Option.none => (st, fs, [])
  | some _ =>
    let sigEffects : List Effect :=
      if env.terminateRaises then []
      else if env.exitsWithinGrace then [Effect.sigtermProcess]
      else [Effect.sigtermProcess, Effect.sigkillProcess]
    let stopped : MMState := { process := Option.none, is_running := false, is_ready := false }
    let pidEffects : List Effect := if fs.pidFileExists then [Effect.removePidFile] else []
    let sockEffects : List Effect :=
      if cfg.model_ipc_type = IpcType.socket ∧ fs.socketFileExists = true
      then [Effect.removeSocketFile] else []
    let fs2 : FS :=
      { pidFileExists := false,
        socketFileExists :=
          if cfg.model_ipc_type = IpcType.socket then false else fs.socketFileExists }
    (stopped, fs2, sigEffects ++ pidEffects ++ sockEffects)

/-- The in-memory fields of `TokenizerManager`: `self.process`,
`self._is_running` (it has no ready flag). -/
structure TMState where
  process : Option Nat := Option.none
  is_running : Bool := false
  deriving Repr, DecidableEq

/-- Embedding of `TokenizerManager.stop` (lines 125-156): the same
escalation as the model manager (grace period 10 s) and a `finally` block
that clears the fields and unlinks the PID file; the tokenizer has no
socket file. -/
def TokenizerManager.stop (st : TMState) (pidFileExists : Bool) (env : StopEnv) :
    TMState × Bool × List Effect :=
  match st.process with
  | Option.none => (st, pidFileExists, [])
  | some _ =>
    let sigEffects : List Effect :=
      if env.terminateRaises then []
      else if env.exitsWithinGrace then [Effect.sigtermProcess]
      else [Effect.sigtermProcess, Effect.sigkillProcess]
    let pidEffects : List Effect := if pidFileExists then [Effect.removePidFile] else []
    (({ process := Option.none, is_running := false } : TMState), false,
      sigEffects ++ pidEffects)

/- ===================================================================
   `start()` for both managers.
   =================================================================== -/

/-- Environment of one `ModelManager.start` call: whether the runner
script exists, whether `Popen` raises, the PID obtained, what the
readiness polling loop observes, and how the child behaves if the failure
path calls `stop()`. -/
structure StartEnv where
  script_exists : Bool := true
  popenRaises : Bool := false
  pid : Nat := 0
  pollTrace : List PollObs := []
  stopEnv : StopEnv := {}
  deriving Repr, DecidableEq

/-- Embedding of `ModelManager.start` (lines 37-107): early success when
already running; failure when the runner script is missing; otherwise
remove a stale socket file, launch the child, write the PID file, and wait
for readiness — on wait failure, `stop()` is called and `False` returned. -/
def ModelManager.start (cfg : Config) (st : MMState) (fs : FS) (env : StartEnv) :
    Bool × MMState × FS × List Effect :=
  if st.is_running then (true, st, fs, [])
  else if !env.script_exists then (false, st, fs, [])
  else
    let staleEffects : List Effect :=
      if cfg.model_ipc_type = IpcType.socket ∧ fs.socketFileExists = true
      then [Effect.removeSocketFile] else []
    let fs0 : FS :=
      if cfg.model_ipc_type = IpcType.socket then { fs with socketFileExists := false } else fs
    if env.popenRaises then (false, st, fs0, staleEffects)
    else
      let st1 : MMState := { st with process := some env.pid }
      let fs1 : FS := { fs0 with pidFileExists := true }
      let effs : List Effect :=
        staleEffects ++ [Effect.launchProcess env.pid, Effect.writePidFile env.pid]
      if waitForReady st1.process.isSome env.pollTrace then
        (true, { st1 with is_running := true, is_ready := true }, fs1,
          effs ++ [Effect.setReadyTrue])
      else
        let r := ModelManager.stop cfg st1 fs1 env.stopEnv
        (false, r.1, r.2.1, effs ++ r.2.2)

/-- What one iteration of `TokenizerManager._wait_for_ready` observes:
child liveness and the result of `self.client.health_check()`. -/
structure TPollObs where
  processExited : Bool
  health_ok : Bool
  deriving Repr, DecidableEq

/-- One iteration of the tokenizer readiness loop (lines 110-120). -/
def twaitIter (hasProcess : Bool) (obs : TPollObs) : WaitStep :=
  if hasProcess && obs.processExited then WaitStep.died
  else if obs.health_ok then WaitStep.ready
  else WaitStep.cont

/-- The tokenizer readiness loop over a finite observation trace. -/
def twaitOutcome (hasProcess : Bool) : List TPollObs → WaitOutcome
  | [] => WaitOutcome.timeout
  | obs :: rest =>
    match twaitIter hasProcess obs with
    | WaitStep.ready => WaitOutcome.ready
    | WaitStep.died => WaitOutcome.died
    | WaitStep.cont => twaitOutcome hasProcess rest

/-- Boolean result of `TokenizerManager._wait_for_ready`. -/
def twaitForReady (hasProcess : Bool) (trace : List TPollObs) : Bool :=
  match twaitOutcome hasProcess trace with
  | WaitOutcome.ready => true
  | _ => false

/-- Environment of one `TokenizerManager.start` call. -/
structure TStartEnv where
  script_exists : Bool := true
  popenRaises : Bool := false
  pid : Nat := 0
  pollTrace : List TPollObs := []
  stopEnv : StopEnv := {}
  deriving Repr, DecidableEq

/-- Embedding of `TokenizerManager.start` (lines 33-97), structurally the
same as the model manager's but with the health-check readiness loop and
no socket handling. -/
def TokenizerManager.start (st : TMState) (pidFileExists : Bool) (env : TStartEnv) :
    Bool × TMState × Bool × List Effect :=
  if st.is_running then (true, st, pidFileExists, [])
  else if !env.script_exists then (false, st, pidFileExists, [])
  else if env.popenRaises then (false, st, pidFileExists, [])
  else
    let st1 : TMState := { st with process := some env.pid }
    let effs : List Effect := [Effect.launchProcess env.pid, Effect.writePidFile env.pid]
    if twaitForReady st1.process.isSome env.pollTrace then
      (true, { st1 with is_running := true }, true, effs)
    else
      let r := TokenizerManager.stop st1 true env.stopEnv
      (false, r.1, r.2.1, effs ++ r.2.2)

/- ===================================================================
   JSON values, Python's `json.loads` (for the peer's reply) and the
   `json.dumps` output for the request shape `ModelManager.generate`
   builds.  Python distinguishes int and float JSON numbers, so the
   value type does too; float values are exact decimals here, modelled
   as rationals and rendered with Python's shortest-decimal `repr`.
   =================================================================== -/

/-- A parsed JSON value. -/
inductive Json where
  | str (s : String)
  | jint (n : Int)
  | jfloat (q : ℚ)
  | bool (b : Bool)
  | null
  | arr (xs : List Json)
  | obj (fields : List (String × Json))

/-- The opening brace character. -/
def lbrace : Char := Char.ofNat 123

/-- The closing brace character. -/
def rbrace : Char := Char.ofNat 125

/-- JSON insignificant whitespace. -/
def isJsonWs (c : Char) : Bool :=
  c = ' ' || c = '\t' || c = '\n' || c = '\r'

/-- Drop leading JSON whitespace. -/
def skipWs : List Char → List Char
  | [] => []
  | c :: cs => if isJsonWs c then skipWs cs else c :: cs

/-- Value of one hexadecimal digit. -/
def hexVal (c : Char) : Option Nat :=
  if '0' ≤ c ∧ c ≤ '9' then some (c.toNat - 48)
  else if 'a' ≤ c ∧ c ≤ 'f' then some (c.toNat - 87)
  else if 'A' ≤ c ∧ c ≤ 'F' then some (c.toNat - 55)
  else Option.none

/-- Four hexadecimal digits of a `\uXXXX` escape. -/
def parseHex4 : List Char → Option (Nat × List Char)
  | a :: b :: c :: d :: rest => do
    let va ← hexVal a
    let vb ← hexVal b
    let vc ← hexVal c
    let vd ← hexVal d
    some (((va * 16 + vb) * 16 + vc) * 16 + vd, rest)
  | _ => Option.none

/-- Body of a JSON string after the opening quote, with the standard
escapes; raw control characters are rejected (`json.loads` strict mode).
Surrogate pairs are not recombined. -/
def parseStringBody : Nat → List Char → String → Option (String × List Char)
  | 0, _, _ => Option.none
  | _ + 1, [], _ => Option.none
  | fuel + 1, c :: cs, acc =>
    if c = '"' then some (acc, cs)
    else if c = '\\' then
      match cs with
      | [] => Option.none
      | e :: cs2 =>
        if e = '"' then parseStringBody fuel cs2 (acc.push '"')
        else if e = '\\' then parseStringBody fuel cs2 (acc.push '\\')
        else if e = '/' then parseStringBody fuel cs2 (acc.push '/')
        else if e = 'b' then parseStringBody fuel cs2 (acc.push (Char.ofNat 8))
        else if e = 'f' then parseStringBody fuel cs2 (acc.push (Char.ofNat 12))
        else if e = 'n' then parseStringBody fuel cs2 (acc.push '\n')
        else if e = 'r' then parseStringBody fuel cs2 (acc.push '\r')
        else if e = 't' then parseStringBody fuel cs2 (acc.push '\t')
        else if e = 'u' then
          match parseHex4 cs2 with
          | some (n, cs3) => parseStringBody fuel cs3 (acc.push (Char.ofNat n))
          | Option.none => Option.none
        else Option.none
    else if c.toNat < 32 then Option.none
    else parseStringBody fuel cs (acc.push c)

/-- Decimal digits to a natural number. -/
def digitsToNat (ds : List Char) : Nat :=
  ds.foldl (fun a c => a * 10 + (c.toNat - 48)) 0

/-- Exponent part of a JSON number, positioned just after `e`/`E`. -/
def parseExpPart (cs : List Char) : Option (Int × List Char) :=
  let (sign, cs1) : Int × List Char :=
    match cs with
    | '+' :: r => (1, r)
    | '-' :: r => (-1, r)
    | _ => (1, cs)
  let (ds, cs2) := cs1.span Char.isDigit
  if ds.isEmpty then Option.none else some (sign * (digitsToNat ds : Int), cs2)

/-- A JSON number: an integer form yields a Python int, a fraction or
exponent yields a Python float. -/
def parseNumber (cs : List Char) : Option (Json × List Char) :=
  let (neg, cs1) : Bool × List Char :=
    match cs with
    | '-' :: rest => (true, rest)
    | _ => (false, cs)
  let (ids, cs2) := cs1.span Char.isDigit
  if ids.isEmpty then Option.none
  else
    let intNat := digitsToNat ids
    match cs2 with
    | '.' :: rest =>
      let (fds, cs3) := rest.span Char.isDigit
      if fds.isEmpty then Option.none
      else
        let mant : Nat := intNat * 10 ^ fds.length + digitsToNat fds
        let base : ℚ := (mant : ℚ) / ((10 ^ fds.length : ℕ) : ℚ)
        let signed : ℚ := if neg then -base else base
        match cs3 with
        | c :: cs4 =>
          if c = 'e' ∨ c = 'E' then
            match parseExpPart cs4 with
            | some (e, cs5) => some (Json.jfloat (signed * (10 : ℚ) ^ e), cs5)
            | Option.none => Option.none
          else some (Json.jfloat signed, cs3)
        | [] => some (Json.jfloat signed, [])
    | c :: cs3 =>
      if c = 'e' ∨ c = 'E' then
        match parseExpPart cs3 with
        | some (e, cs4) =>
          let signed : ℚ := if neg then -(intNat : ℚ) else (intNat : ℚ)
          some (Json.jfloat (signed * (10 : ℚ) ^ e), cs4)
        | Option.none => Option.none
      else some (Json.jint (if neg then -(intNat : Int) else (intNat : Int)), cs2)
    | [] => some (Json.jint (if neg then -(intNat : Int) else (intNat : Int)), [])

/-- Parser task: a value, the elements of an array after `[`, or the
members of an object after the opening brace. -/
inductive PTask where
  | val
  | elems (acc : List Json)
  | members (acc : List (String × Json))

/-- Fueled recursive-descent JSON parser. -/
def parseStep : Nat → PTask → List Char → Option (Json × List Char)
  | 0, _, _ => Option.none
  | fuel + 1, PTask.val, cs =>
    match skipWs cs with
    | [] => Option.none
    | c :: rest =>
      if c = '"' then
        match parseStringBody (rest.length + 1) rest "" with
        | some (s, r) => some (Json.str s, r)
        | Option.none => Option.none
      else if c = lbrace then
        match skipWs rest with
        | d :: rest2 =>
          if d = rbrace then some (Json.obj [], rest2)
          else parseStep fuel (PTask.members []) (d :: rest2)
        | [] => Option.none
      else if c = '[' then
        match skipWs rest with
        | d :: rest2 =>
          if d = ']' then some (Json.arr [], rest2)
          else parseStep fuel (PTask.elems []) (d :: rest2)
        | [] => Option.none
      else if c = 't' then
        match rest with
        | 'r' :: 'u' :: 'e' :: r => some (Json.bool true, r)
        | _ => Option.none
      else if c = 'f' then
        match rest with
        | 'a' :: 'l' :: 's' :: 'e' :: r => some (Json.bool false, r)
        | _ => Option.none
      else if c = 'n' then
        match rest with
        | 'u' :: 'l' :: 'l' :: r => some (Json.null, r)
        | _ => Option.none
      else parseNumber (c :: rest)
  | fuel + 1, PTask.members acc, cs =>
    match cs with
    | c :: rest =>
      if c = '"' then
        match parseStringBody (rest.length + 1) rest "" with
        | some (key, cs1) =>
          match skipWs cs1 with
          | ':' :: cs2 =>
            match parseStep fuel PTask.val cs2 with
            | some (v, cs3) =>
              match skipWs cs3 with
              | d :: cs4 =>
                if d = ',' then parseStep fuel (PTask.members (acc ++ [(key, v)])) (skipWs cs4)
                else if d = rbrace then some (Json.obj (acc ++ [(key, v)]), cs4)
                else Option.none
              | [] => Option.none
            | Option.none => Option.none
          | _ => Option.none
        | Option.none => Option.none
      else Option.none
    | [] => Option.none
  | fuel + 1, PTask.elems acc, cs =>
    match parseStep fuel PTask.val cs with
    | some (v, cs1) =>
      match skipWs cs1 with
      | d :: cs2 =>
        if d = ',' then parseStep fuel (PTask.elems (acc ++ [v])) cs2
        else if d = ']' then some (Json.arr (acc ++ [v]), cs2)
        else Option.none
      | [] => Option.none
    | Option.none => Option.none

/-- Embedding of `json.loads`: parse one document, allow surrounding
whitespace, reject trailing garbage. -/
def json_loads (s : String) : Option Json :=
  let cs := s.data
  match parseStep (8 * cs.length + 16) PTask.val cs with
  | some (j, rest) => if (skipWs rest).isEmpty then some j else Option.none
  | Option.none => Option.none

/-- Lookup in a parsed JSON object.  A document with duplicate keys keeps
the last occurrence, as a Python dict does. -/
def jsonObjGet (fields : List (String × Json)) (key : String) : Option Json :=
  match fields with
  | [] => Option.none
  | (k, v) :: rest =>
    match jsonObjGet rest key with
    | some w => some w
    | Option.none => if k = key then some v else Option.none

/- `json.dumps` for the request built in `ModelManager.generate`:
`json.dumps` with default separators, `ensure_ascii=True`, dict keys in
insertion order. -/

/-- Lowercase hexadecimal digit. -/
def hexDigit (n : Nat) : Char :=
  if n < 10 then Char.ofNat (48 + n) else Char.ofNat (87 + n % 16)

/-- Four lowercase hexadecimal digits. -/
def hex4 (n : Nat) : String :=
  String.mk [hexDigit (n / 4096 % 16), hexDigit (n / 256 % 16), hexDigit (n / 16 % 16),
    hexDigit (n % 16)]

/-- The `\uXXXX` escape `json.dumps` emits for a character outside
`0x20`-`0x7e`, with a surrogate pair beyond the basic plane. -/
def uEscape (n : Nat) : String :=
  if n < 65536 then "\\u" ++ hex4 n
  else
    let m := n - 65536
    "\\u" ++ hex4 (55296 + m / 1024) ++ "\\u" ++ hex4 (56320 + m % 1024)

/-- How `json.dumps` renders one character of a string. -/
def escapeChar (c : Char) : String :=
  if c = '"' then "\\\""
  else if c = '\\' then "\\\\"
  else if c = '\n' then "\\n"
  else if c = '\t' then "\\t"
  else if c = '\r' then "\\r"
  else if c.toNat = 8 then "\\b"
  else if c.toNat = 12 then "\\f"
  else if c.toNat < 32 ∨ c.toNat > 126 then uEscape c.toNat
  else String.singleton c

/-- `json.dumps` string-body escaping. -/
def escapeString (s : String) : String :=
  String.join (s.data.map escapeChar)

/-- A serialized JSON string. -/
def dumpsStr (s : String) : String := "\"" ++ escapeString s ++ "\""

/-- Left-pad with zeros to `k` digits. -/
def padZeros (s : String) (k : Nat) : String :=
  if s.length < k then String.mk (List.replicate (k - s.length) '0') ++ s else s

/-- Least `k` with `d ∣ 10 ^ k`, for denominators of decimal values. -/
def decExp (d : Nat) : Option Nat :=
  (List.range 40).find? (fun k => 10 ^ k % d == 0)

/-- Python's `repr` of a float whose value is an exact decimal (the only
floats arising here): an integral value renders with a trailing `.0`,
otherwise the shortest decimal expansion.  Non-decimal rationals cannot
arise from the embedded code; they get an arbitrary marker rendering. -/
def pyFloatRepr (q : ℚ) : String :=
  match decExp q.den with
  | some 0 => toString q.num ++ ".0"
  | some (k + 1) =>
    let scaled : Int := q.num * ((10 ^ (k + 1) / q.den : ℕ) : Int)
    let sign := if scaled < 0 then "-" else ""
    let a := scaled.natAbs
    let ip := a / 10 ^ (k + 1)
    let fp := a % 10 ^ (k + 1)
    sign ++ toString ip ++ "." ++ padZeros (toString fp) (k + 1)
  | Option.none => "<nondecimal>"

/-- `json.dumps` of the `params` dict, keys in insertion order. -/
def dumpsParams (p : SamplingParams) : String :=
  "\x7b\"temperature\": " ++ pyFloatRepr p.temperature ++
  ", \"top_k\": " ++ toString p.top_k ++
  ", \"top_p\": " ++ pyFloatRepr p.top_p ++
  ", \"max_tokens\": " ++ toString p.max_tokens ++
  ", \"repeat_penalty\": " ++ pyFloatRepr p.repeat_penalty ++ "\x7d"

/-- `json.dumps` of the request dict `ModelManager.generate` builds. -/
def dumpsRequest (prompt : String) (p : SamplingParams) : String :=
  "\x7b\"prompt\": " ++ dumpsStr prompt ++ ", \"params\": " ++ dumpsParams p ++ "\x7d"

/- ===================================================================
   `ModelManager._send_request` (lines 290-338) and
   `ModelManager.generate` (lines 231-288).
   =================================================================== -/

/-- The whitespace characters `str.strip()` removes (ASCII range). -/
def isPyWs (c : Char) : Bool :=
  c = ' ' || c = '\t' || c = '\n' || c = '\r' || c = Char.ofNat 11 || c = Char.ofNat 12

/-- Python's `str.strip()`: drop leading and trailing whitespace. -/
def pyStrip (s : String) : String :=
  String.mk (((s.data.dropWhile isPyWs).reverse.dropWhile isPyWs).reverse)

/-- Behaviour of the peer during one request: whether the connect
succeeds, whether the read times out, and the chunks `recv` returns (an
empty chunk means the peer closed the connection). -/
structure NetEnv where
  connect_ok : Bool := true
  request_times_out : Bool := false
  replyChunks : List String := []
  deriving Repr, DecidableEq

/-- Channel I/O observable on the wire. -/
inductive WireEvent where
  | connectAttempt
  | sent (bytes : String)
  deriving Repr, DecidableEq

/-- The `_send_request` read loop: accumulate chunks until the peer
closes or a newline byte has been observed (the whole last chunk is
kept). -/
def recvUntilNewline : List String → String → String
  | [], acc => acc
  | c :: rest, acc =>
    if c = "" then acc
    else
      let acc2 := acc ++ c
      if acc2.data.contains '\n' then acc2 else recvUntilNewline rest acc2

/-- The error kinds `_send_request` raises (`socket.timeout` versus any
other failure); `generate` collapses both into `ModelError`. -/
inductive SendErr where
  | timeout
  | failed
  deriving Repr, DecidableEq

/-- Embedding of `ModelManager._send_request`: connect, send
`json.dumps(request) + "\n"`, read until a newline, strip, parse as
JSON; connect, read-timeout and parse failures raise. -/
def ModelManager.send_request (env : NetEnv) (prompt : String) (params : SamplingParams) :
    Except SendErr Json × List WireEvent :=
  if !env.connect_ok then (Except.error SendErr.failed, [WireEvent.connectAttempt])
  else
    let request_json := dumpsRequest prompt params ++ "\n"
    let events := [WireEvent.connectAttempt, WireEvent.sent request_json]
    if env.request_times_out then (Except.error SendErr.timeout, events)
    else
      let raw := recvUntilNewline env.replyChunks ""
      match json_loads (pyStrip raw) with
      | some j => (Except.ok j, events)
      | Option.none => (Except.error SendErr.failed, events)

/-- The caller-visible outcome of `ModelManager.generate`: the fast
`ModelError("Model is not ready")`, a `ModelError("Generation failed: ...")`
after attempted I/O, or the generated text. -/
inductive GenOutcome where
  | notReadyError
  | generationFailed
  | success (text : String)
  deriving Repr, DecidableEq

/-- Embedding of `ModelManager.generate`: reject when not ready before
any channel I/O; otherwise fill the sampling parameters from the
configuration defaults, send the request, and extract
`response.get("text", "")`.  A reply that is not a JSON object makes the
`.get` attribute access raise; a non-string `text` payload raises in the
response-length debug formatting; both surface as `ModelError`. -/
def ModelManager.generate (cfg : Config) (st : MMState) (env : NetEnv)
    (prompt : String) (a : GenArgs) : GenOutcome × List WireEvent :=
  if !st.is_ready then (GenOutcome.notReadyError, [])
  else
    let params := fillParams cfg a
    match ModelManager.send_request env prompt params with
    | (Except.ok (Json.obj fields), events) =>
      match jsonObjGet fields "text" with
      | some (Json.str s) => (GenOutcome.success s, events)
      | Option.none => (GenOutcome.success "", events)
      | some _ => (GenOutcome.generationFailed, events)
    | (Except.ok _, events) => (GenOutcome.generationFailed, events)
    | (Except.error _, events) => (GenOutcome.generationFailed, events)

theorem intercalate_singleton (s a : String) : String.intercalate s [a] = a := rfl

theorem isValidMessage_eq_claimMessageOk (m : PyVal) :
    isValidMessage m = claimMessageOk m := by
  cases m with
  | dict fields =>
    simp only [isValidMessage, claimMessageOk]
    cases hr : pyDictGet fields "role" with
    | none => simp [hr]
    | some v =>
      cases hc : pyDictGet fields "content" with
      | none => cases v <;> simp [hr, hc]
      | some w => cases v <;> cases w <;> simp [hr, hc]
  | str s => rfl
  | int n => rfl
  | bool b => rfl
  | none => rfl
  | list xs => rfl

/-- C10: `validate_messages` returns `True` exactly when its argument is a
non-empty list whose every element is a dict with a `role` key holding one
of the three allowed roles and a `content` key holding a string; in
particular a message with an unknown role makes `validate_messages` return
`False`, while `apply_chat_template_local` renders the same message with
role `user`. -/
theorem c10_validate_messages_spec :
    (∀ v : PyVal, validate_messages v = true ↔ claimMessagesOk v = true) ∧
    (∀ (msgs : List PyVal) (fields : List (String × PyVal)) (r : String),
      PyVal.dict fields ∈ msgs →
      pyDictGet fields "role" = some (PyVal.str r) →
      qwenRoles.contains r = false →
      validate_messages (PyVal.list msgs) = false) ∧
    (∀ (r content : String), qwenRoles.contains r = false →
      apply_chat_template_local [[("role", r), ("content", content)]] false =
        "<|im_start|>user\n" ++ content ++ "<|im_end|>") := by
  refine ⟨?_, ?_, ?_⟩
  · intro v
    cases v with
    | list msgs =>
      simp only [validate_messages, claimMessagesOk]
      constructor <;> intro h <;>
        simp_all [List.all_eq_true, isValidMessage_eq_claimMessageOk]
    | str s => exact Iff.rfl
    | int n => exact Iff.rfl
    | bool b => exact Iff.rfl
    | none => exact Iff.rfl
    | dict fields => exact Iff.rfl
  · intro msgs fields r hmem hrole hbad
    cases hall : msgs.all isValidMessage with
    | false => simp [validate_messages, hall]
    | true =>
      exfalso
      have := (List.all_eq_true.mp hall) _ hmem
      have hbad' : r ∉ qwenRoles := by simpa using hbad
      simp [isValidMessage, hrole, hbad'] at this
  · intro r content hbad
    have hbad' : r ∉ qwenRoles := by simpa using hbad
    simp [apply_chat_template_local, dictGetD, hbad', intercalate_singleton]

/-- Witness for C10 at concrete inputs: a well-formed message list is
accepted, a message with role `"tool"` is rejected by validation but
rendered as role `user` by the local template fallback. -/
theorem c10_witness :
    (validate_messages (PyVal.list [PyVal.dict
        [("role", PyVal.str "user"), ("content", PyVal.str "hi")]]) = true) ∧
    (validate_messages (PyVal.list [PyVal.dict
        [("role", PyVal.str "tool"), ("content", PyVal.str "x")]]) = false) ∧
    (apply_chat_template_local [[("role", "tool"), ("content", "x")]] false =
      "<|im_start|>user\nx<|im_end|>") := by
  refine ⟨?_, ?_, ?_⟩
  · exact (c10_validate_messages_spec.1 _).mpr (by decide)
  · exact c10_validate_messages_spec.2.1
      [PyVal.dict [("role", PyVal.str "tool"), ("content", PyVal.str "x")]]
      [("role", PyVal.str "tool"), ("content", PyVal.str "x")]
      "tool" (List.mem_singleton.mpr rfl) rfl (by decide)
  · exact c10_validate_messages_spec.2.2 "tool" "x" (by decide)

/- ===================================================================
   Helper lemmas about `stop`.
   =================================================================== -/

theorem stop_effect_kinds (cfg : Config) (st : MMState) (fs : FS) (env : StopEnv) :
    ∀ e ∈ (ModelManager.stop cfg st fs env).2.2,
      e = Effect.sigtermProcess ∨ e = Effect.sigkillProcess ∨
      e = Effect.removePidFile ∨ e = Effect.removeSocketFile := by
  intro e he
  obtain ⟨p, runb, readyb⟩ := st
  obtain ⟨pf, sf⟩ := fs
  obtain ⟨eg, tr⟩ := env
  obtain ⟨ipc, a1, a2, a3, a4, a5⟩ := cfg
  cases p <;> cases ipc <;> cases eg <;> cases tr <;> cases pf <;> cases sf <;>
    (try simp_all [ModelManager.stop]) <;> tauto

theorem tstop_effect_kinds (st : TMState) (pf : Bool) (env : StopEnv) :
    ∀ e ∈ (TokenizerManager.stop st pf env).2.2,
      e = Effect.sigtermProcess ∨ e = Effect.sigkillProcess ∨ e = Effect.removePidFile := by
  intro e he
  obtain ⟨p, runb⟩ := st
  obtain ⟨eg, tr⟩ := env
  cases p <;> cases eg <;> cases tr <;> cases pf <;>
    (try simp_all [TokenizerManager.stop]) <;> tauto

theorem stop_no_setReady (cfg : Config) (st : MMState) (fs : FS) (env : StopEnv) :
    Effect.setReadyTrue ∉ (ModelManager.stop cfg st fs env).2.2 := by
  intro hmem
  rcases stop_effect_kinds cfg st fs env _ hmem with h | h | h | h <;> exact Effect.noConfusion h

/- ===================================================================
   C3 — the termination escalation ladder.
   =================================================================== -/

/-- C3 counterexample: the claim that a child still alive after the grace
period makes the supervisor signal the entire process group is false —
`stop()` only ever signals the single `Popen` handle. -/
theorem c3_counterexample :
    ¬ (∀ (cfg : Config) (st : MMState) (fs : FS) (env : StopEnv),
        st.process.isSome = true → env.exitsWithinGrace = false →
        env.terminateRaises = false →
        Effect.sigtermGroup ∈ (ModelManager.stop cfg st fs env).2.2 ∨
        Effect.sigkillGroup ∈ (ModelManager.stop cfg st fs env).2.2) := by
  intro h
  have hx := h defaultConfig
    { process := some 4242, is_running := true, is_ready := true }
    { pidFileExists := true, socketFileExists := true }
    { exitsWithinGrace := false, terminateRaises := false } rfl rfl rfl
  exact absurd hx (by decide)

/-- C3 (amended): when the child survives the grace period after the
cooperative SIGTERM, both managers escalate to a forced kill of the single
launched process (`Popen.kill`), in that order; no process-group signal is
ever sent. -/
theorem c3_amended (cfg : Config) (st : MMState) (fs : FS) (env : StopEnv)
    (tst : TMState) (tpf : Bool) (tenv : StopEnv)
    (hp : st.process.isSome = true) (hg : env.exitsWithinGrace = false)
    (hr : env.terminateRaises = false)
    (htp : tst.process.isSome = true) (htg : tenv.exitsWithinGrace = false)
    (htr : tenv.terminateRaises = false) :
    ((ModelManager.stop cfg st fs env).2.2.take 2 =
        [Effect.sigtermProcess, Effect.sigkillProcess] ∧
     Effect.sigtermGroup ∉ (ModelManager.stop cfg st fs env).2.2 ∧
     Effect.sigkillGroup ∉ (ModelManager.stop cfg st fs env).2.2) ∧
    ((TokenizerManager.stop tst tpf tenv).2.2.take 2 =
        [Effect.sigtermProcess, Effect.sigkillProcess] ∧
     Effect.sigtermGroup ∉ (TokenizerManager.stop tst tpf tenv).2.2 ∧
     Effect.sigkillGroup ∉ (TokenizerManager.stop tst tpf tenv).2.2) := by
  obtain ⟨p, runb, readyb⟩ := st
  obtain ⟨pff, sff⟩ := fs
  obtain ⟨eg, tr⟩ := env
  obtain ⟨tp, trun⟩ := tst
  obtain ⟨teg, ttr⟩ := tenv
  obtain ⟨ipc, a1, a2, a3, a4, a5⟩ := cfg
  simp only at hg hr htg htr
  subst hg hr htg htr
  cases p with
  | none => simp at hp
  | some pid =>
    cases tp with
    | none => simp at htp
    | some tpid =>
      cases ipc <;> cases pff <;> cases sff <;> cases tpf <;>
        simp [ModelManager.stop, TokenizerManager.stop]

/-- Witness for C3 (amended) at a concrete unresponsive child. -/
theorem c3_witness :
    ((ModelManager.stop defaultConfig
        { process := some 4242, is_running := true, is_ready := true }
        { pidFileExists := true, socketFileExists := true }
        { exitsWithinGrace := false, terminateRaises := false }).2.2.take 2 =
      [Effect.sigtermProcess, Effect.sigkillProcess]) ∧
    Effect.sigtermGroup ∉ (TokenizerManager.stop { process := some 7, is_running := true }
      true { exitsWithinGrace := false, terminateRaises := false }).2.2 :=
  ⟨(c3_amended defaultConfig
      { process := some 4242, is_running := true, is_ready := true }
      { pidFileExists := true, socketFileExists := true }
      { exitsWithinGrace := false, terminateRaises := false }
      { process := some 7, is_running := true } true
      { exitsWithinGrace := false, terminateRaises := false }
      rfl rfl rfl rfl rfl rfl).1.1,
   (c3_amended defaultConfig
      { process := some 4242, is_running := true, is_ready := true }
      { pidFileExists := true, socketFileExists := true }
      { exitsWithinGrace := false, terminateRaises := false }
      { process := some 7, is_running := true } true
      { exitsWithinGrace := false, terminateRaises := false }
      rfl rfl rfl rfl rfl rfl).2.2.1⟩

/- ===================================================================
   C4 — cleanup on every termination path.
   =================================================================== -/

/-- C4: whenever `stop()` runs on a manager holding a process handle, the
`finally` block guarantees — on every path, including escalation to a
forced kill and a raising signal call — that the PID file is gone, the
socket file is gone for the socket transport, and the in-memory handles
are cleared; likewise for the tokenizer manager (PID file only). -/
theorem c4_terminate_cleanup (cfg : Config) (st : MMState) (fs : FS) (env : StopEnv)
    (tst : TMState) (tpf : Bool) (tenv : StopEnv)
    (hp : st.process.isSome = true) (htp : tst.process.isSome = true) :
    ((ModelManager.stop cfg st fs env).2.1.pidFileExists = false ∧
     (cfg.model_ipc_type = IpcType.socket →
       (ModelManager.stop cfg st fs env).2.1.socketFileExists = false) ∧
     (ModelManager.stop cfg st fs env).1.process = Option.none ∧
     (ModelManager.stop cfg st fs env).1.is_running = false ∧
     (ModelManager.stop cfg st fs env).1.is_ready = false) ∧
    ((TokenizerManager.stop tst tpf tenv).2.1 = false ∧
     (TokenizerManager.stop tst tpf tenv).1.process = Option.none ∧
     (TokenizerManager.stop tst tpf tenv).1.is_running = false) := by
  obtain ⟨p, runb, readyb⟩ := st
  obtain ⟨tp, trun⟩ := tst
  cases p with
  | none => simp at hp
  | some pid =>
    cases tp with
    | none => simp at htp
    | some tpid =>
      refine ⟨⟨rfl, fun hsock => ?_, rfl, rfl, rfl⟩, rfl, rfl, rfl⟩
      simp [ModelManager.stop, hsock]

/-- Witness for C4 at a concrete non-responsive child with a raising
signal call. -/
theorem c4_witness :
    (ModelManager.stop defaultConfig
      { process := some 4242, is_running := true, is_ready := true }
      { pidFileExists := true, socketFileExists := true }
      { exitsWithinGrace := false, terminateRaises := true }).2.1.pidFileExists = false ∧
    (TokenizerManager.stop { process := some 7, is_running := true } true
      { exitsWithinGrace := false, terminateRaises := true }).2.1 = false :=
  ⟨(c4_terminate_cleanup defaultConfig
      { process := some 4242, is_running := true, is_ready := true }
      { pidFileExists := true, socketFileExists := true }
      { exitsWithinGrace := false, terminateRaises := true }
      { process := some 7, is_running := true } true
      { exitsWithinGrace := false, terminateRaises := true } rfl rfl).1.1,
   (c4_terminate_cleanup defaultConfig
      { process := some 4242, is_running := true, is_ready := true }
      { pidFileExists := true, socketFileExists := true }
      { exitsWithinGrace := false, terminateRaises := true }
      { process := some 7, is_running := true } true
      { exitsWithinGrace := false, terminateRaises := true } rfl rfl).2.1⟩

/- ===================================================================
   C5 — child exit during the readiness wait.
   =================================================================== -/

/-- C5: if the child process exits during the readiness wait, `start()`
returns `False`, the manager's ready flag is false afterwards, and the
`_is_ready = True` assignment is never executed during the call. -/
theorem c5_child_exit_start_fails (cfg : Config) (st : MMState) (fs : FS) (env : StartEnv)
    (hrun : st.is_running = false) (hscript : env.script_exists = true)
    (hpopen : env.popenRaises = false)
    (hdied : waitOutcome true env.pollTrace = WaitOutcome.died) :
    (ModelManager.start cfg st fs env).1 = false ∧
    (ModelManager.start cfg st fs env).2.1.is_ready = false ∧
    Effect.setReadyTrue ∉ (ModelManager.start cfg st fs env).2.2.2 := by
  have hwf : waitForReady true env.pollTrace = false := by
    unfold waitForReady
    rw [hdied]
  refine ⟨?_, ?_, ?_⟩
  · simp only [ModelManager.start, hrun, hscript, hpopen, Bool.not_true, Bool.not_false,
      Bool.false_eq_true, if_false, Option.isSome_some, hwf, ite_false]
  · simp only [ModelManager.start, hrun, hscript, hpopen, Bool.not_true, Bool.not_false,
      Bool.false_eq_true, if_false, Option.isSome_some, hwf, ite_false]
    simp [ModelManager.stop]
  · simp only [ModelManager.start, hrun, hscript, hpopen, Bool.not_true, Bool.not_false,
      Bool.false_eq_true, if_false, Option.isSome_some, hwf, ite_false]
    intro hmem
    simp only [List.mem_append] at hmem
    rcases hmem with (hm | hm) | hm
    · revert hm
      split <;> simp
    · simp at hm
    · exact stop_no_setReady _ _ _ _ hm

/-- Witness for C5: a trace whose first poll sees the child dead. -/
theorem c5_witness :
    (ModelManager.start defaultConfig {} {}
      { script_exists := true, pid := 99,
        pollTrace := [{ processExited := true, log_exists := false,
                        can_connect := false }] }).1 = false ∧
    (ModelManager.start defaultConfig {} {}
      { script_exists := true, pid := 99,
        pollTrace := [{ processExited := true, log_exists := false,
                        can_connect := false }] }).2.1.is_ready = false :=
  ⟨(c5_child_exit_start_fails defaultConfig _ _ _ rfl rfl rfl (by decide)).1,
   (c5_child_exit_start_fails defaultConfig _ _ _ rfl rfl rfl (by decide)).2.1⟩

/- ===================================================================
   C1 — readiness gating by the log success pattern.
   =================================================================== -/

/-- C1 counterexample: the claim "in a poll iteration where the log file
exists but holds no success pattern, a successful connectivity check alone
must not make the wait report ready" is false — the loop's unconditional
`_can_connect()` fallback reports ready exactly there. -/
theorem c1_counterexample :
    ¬ (∀ obs : PollObs, obs.processExited = false → obs.log_exists = true →
        obs.logReadOk = true → logHasAnyPattern obs.log_content = false →
        obs.can_connect = true → waitIter true obs ≠ WaitStep.ready) := by
  intro h
  exact h
    { processExited := false, log_exists := true, logReadOk := true,
      log_content := "model starting", can_connect := true }
    rfl rfl rfl (by decide) rfl (by decide)

/-- C1 (amended): in any poll iteration where the child has not exited, a
successful connectivity check alone makes the wait report ready, whether
or not the log file exists or holds a success pattern; the log-pattern
branch is an additional early path, not a gate. -/
theorem c1_amended (hasProcess : Bool) (obs : PollObs)
    (hd : (hasProcess && obs.processExited) = false) (hc : obs.can_connect = true) :
    waitIter hasProcess obs = WaitStep.ready := by
  simp [waitIter, hd, hc]

/-- Witness for C1 (amended) at a concrete iteration: log present, no
success pattern, connection accepted. -/
theorem c1_witness :
    waitIter true
      { processExited := false, log_exists := true, logReadOk := true,
        log_content := "model starting", can_connect := true } = WaitStep.ready :=
  c1_amended true _ (by decide) rfl

/- ===================================================================
   C6 — idempotent start on a running manager.
   =================================================================== -/

/-- C6: `start()` on a manager whose `_is_running` flag is set returns
`True` without launching a child, without touching the PID file, and
without changing any state, for both managers. -/
theorem c6_start_idempotent (cfg : Config) (st : MMState) (fs : FS) (env : StartEnv)
    (tst : TMState) (tpf : Bool) (tenv : TStartEnv)
    (h : st.is_running = true) (ht : tst.is_running = true) :
    ModelManager.start cfg st fs env = (true, st, fs, []) ∧
    TokenizerManager.start tst tpf tenv = (true, tst, tpf, []) := by
  constructor
  · simp [ModelManager.start, h]
  · simp [TokenizerManager.start, ht]

/-- Witness for C6 at a concrete running manager. -/
theorem c6_witness :
    ModelManager.start defaultConfig
      { process := some 11, is_running := true, is_ready := true }
      { pidFileExists := true, socketFileExists := false } { script_exists := true } =
      (true, { process := some 11, is_running := true, is_ready := true },
       { pidFileExists := true, socketFileExists := false }, []) ∧
    TokenizerManager.start { process := some 12, is_running := true } true
      { script_exists := true } =
      (true, { process := some 12, is_running := true }, true, []) :=
  c6_start_idempotent defaultConfig _ _ _ _ _ _ rfl rfl

/- ===================================================================
   C7 — generate rejected before any I/O when not ready.
   =================================================================== -/

/-- C7: a `generate` call on a manager that is not ready fails with the
`Model is not ready` error and performs no channel I/O at all: no connect
attempt and no bytes sent. -/
theorem c7_generate_not_ready (cfg : Config) (st : MMState) (env : NetEnv)
    (prompt : String) (a : GenArgs) (h : st.is_ready = false) :
    ModelManager.generate cfg st env prompt a = (GenOutcome.notReadyError, []) := by
  simp [ModelManager.generate, h]

/-- Witness for C7 at a concrete stopped manager. -/
theorem c7_witness :
    ModelManager.generate defaultConfig { process := Option.none }
      { replyChunks := ["\x7b\"text\": \"ignored\"\x7d\n"] } "2+2?" {} =
      (GenOutcome.notReadyError, []) :=
  c7_generate_not_ready defaultConfig _ _ _ _ rfl

/- ===================================================================
   Wire-event helpers for `generate`.
   =================================================================== -/

theorem send_request_events (env : NetEnv) (prompt : String) (p : SamplingParams)
    (hcn : env.connect_ok = true) :
    (ModelManager.send_request env prompt p).2 =
      [WireEvent.connectAttempt, WireEvent.sent (dumpsRequest prompt p ++ "\n")] := by
  unfold ModelManager.send_request
  simp only [hcn, Bool.not_true, Bool.false_eq_true, if_false, ite_false]
  cases ht : env.request_times_out with
  | true => simp [ht]
  | false =>
    simp only [ht, Bool.false_eq_true, if_false, ite_false]
    cases hl : json_loads (pyStrip (recvUntilNewline env.replyChunks "")) <;> simp [hl]

theorem generate_events (cfg : Config) (st : MMState) (env : NetEnv) (prompt : String)
    (a : GenArgs) (hst : st.is_ready = true) (hcn : env.connect_ok = true) :
    (ModelManager.generate cfg st env prompt a).2 =
      [WireEvent.connectAttempt,
       WireEvent.sent (dumpsRequest prompt (fillParams cfg a) ++ "\n")] := by
  have hs := send_request_events env prompt (fillParams cfg a) hcn
  unfold ModelManager.generate
  simp only [hst, Bool.not_true, Bool.false_eq_true, if_false, ite_false]
  rcases hsr : ModelManager.send_request env prompt (fillParams cfg a) with ⟨res, evs⟩
  rw [hsr] at hs
  cases res with
  | error e => simpa using hs
  | ok j =>
    cases j with
    | obj fields =>
      rcases hjt : jsonObjGet fields "text" with _ | v
      · simpa [hjt] using hs
      · cases v <;> simp [hjt] <;> exact hs
    | str s => simpa using hs
    | jint n => simpa using hs
    | jfloat q => simpa using hs
    | bool b => simpa using hs
    | null => simpa using hs
    | arr xs => simpa using hs

/- ===================================================================
   C2 — filling of sampling parameters before transmission.
   =================================================================== -/

/-- C2 counterexample: the claim that a parameter the caller sets is
transmitted with exactly the caller's value is false for falsy values —
`temperature or default` replaces an explicit `0.0` by the configuration
default. -/
theorem c2_counterexample :
    ¬ (∀ (cfg : Config) (a : GenArgs) (t : ℚ),
        a.temperature = some t → (fillParams cfg a).temperature = t) := by
  intro h
  have hx := h defaultConfig { temperature := some 0 } 0 rfl
  exact absurd hx (by decide)

/-- C2 (amended): a parameter that is unset (`None`) or set to the falsy
value zero is replaced by the configuration default; a nonzero caller
value is transmitted exactly; and the params placed on the wire by
`generate` are exactly the filled ones. -/
theorem c2_amended (cfg : Config) (a : GenArgs) :
    ((a.temperature = Option.none ∨ a.temperature = some 0) →
        (fillParams cfg a).temperature = cfg.default_temperature) ∧
    (∀ v : ℚ, a.temperature = some v → v ≠ 0 → (fillParams cfg a).temperature = v) ∧
    ((a.top_k = Option.none ∨ a.top_k = some 0) →
        (fillParams cfg a).top_k = cfg.default_top_k) ∧
    (∀ v : Int, a.top_k = some v → v ≠ 0 → (fillParams cfg a).top_k = v) ∧
    ((a.top_p = Option.none ∨ a.top_p = some 0) →
        (fillParams cfg a).top_p = cfg.default_top_p) ∧
    (∀ v : ℚ, a.top_p = some v → v ≠ 0 → (fillParams cfg a).top_p = v) ∧
    ((a.max_tokens = Option.none ∨ a.max_tokens = some 0) →
        (fillParams cfg a).max_tokens = cfg.default_max_tokens) ∧
    (∀ v : Int, a.max_tokens = some v → v ≠ 0 → (fillParams cfg a).max_tokens = v) ∧
    ((a.repeat_penalty = Option.none ∨ a.repeat_penalty = some 0) →
        (fillParams cfg a).repeat_penalty = cfg.default_repeat_penalty) ∧
    (∀ v : ℚ, a.repeat_penalty = some v → v ≠ 0 →
        (fillParams cfg a).repeat_penalty = v) ∧
    (∀ (st : MMState) (env : NetEnv) (prompt : String),
      st.is_ready = true → env.connect_ok = true →
      (ModelManager.generate cfg st env prompt a).2 =
        [WireEvent.connectAttempt,
         WireEvent.sent (dumpsRequest prompt (fillParams cfg a) ++ "\n")]) := by
  refine ⟨?_, ?_, ?_, ?_, ?_, ?_, ?_, ?_, ?_, ?_, ?_⟩
  · rintro (h | h) <;> simp [fillParams, pyOrFloat, h]
  · intro v hv hnz
    simp [fillParams, pyOrFloat, hv, hnz]
  · rintro (h | h) <;> simp [fillParams, pyOrInt, h]
  · intro v hv hnz
    simp [fillParams, pyOrInt, hv, hnz]
  · rintro (h | h) <;> simp [fillParams, pyOrFloat, h]
  · intro v hv hnz
    simp [fillParams, pyOrFloat, hv, hnz]
  · rintro (h | h) <;> simp [fillParams, pyOrInt, h]
  · intro v hv hnz
    simp [fillParams, pyOrInt, hv, hnz]
  · rintro (h | h) <;> simp [fillParams, pyOrFloat, h]
  · intro v hv hnz
    simp [fillParams, pyOrFloat, hv, hnz]
  · intro st env prompt hst hcn
    exact generate_events cfg st env prompt a hst hcn

/-- Witness for C2 (amended) at concrete inputs: a nonzero temperature
passes through, an unset top_k falls back to the default 40, and the wire
carries the filled params. -/
theorem c2_witness :
    (fillParams defaultConfig { temperature := some 2 }).temperature = 2 ∧
    (fillParams defaultConfig { temperature := some 2 }).top_k = 40 ∧
    (ModelManager.generate defaultConfig
      { process := some 1, is_running := true, is_ready := true }
      { replyChunks := ["\x7b\x7d\n"] } "p" { temperature := some 2 }).2 =
      [WireEvent.connectAttempt,
       WireEvent.sent
         (dumpsRequest "p" (fillParams defaultConfig { temperature := some 2 }) ++ "\n")] := by
  refine ⟨?_, ?_, ?_⟩
  · exact (c2_amended defaultConfig { temperature := some 2 }).2.1 2 rfl (by norm_num)
  · exact (c2_amended defaultConfig { temperature := some 2 }).2.2.1 (Or.inl rfl)
  · exact (c2_amended defaultConfig
      { temperature := some 2 }).2.2.2.2.2.2.2.2.2.2
      { process := some 1, is_running := true, is_ready := true }
      { replyChunks := ["\x7b\x7d\n"] } "p" rfl rfl

/- ===================================================================
   C8 — framed-socket round trip.
   =================================================================== -/

/-- C8: a ready manager whose peer answers the newline-terminated request
with `\x7b"text":"4"\x7d` and a newline returns exactly `"4"` for the prompt
`2+2?`; the bytes written on the wire are the single-line JSON request
(prompt and filled params, `json.dumps` rendering) terminated by one
newline, and the payload itself holds no newline. -/
theorem c8_framed_socket_round_trip :
    ModelManager.generate defaultConfig
      { process := some 1234, is_running := true, is_ready := true }
      { connect_ok := true, request_times_out := false,
        replyChunks := ["\x7b\"text\":\"4\"\x7d\n"] }
      "2+2?" {} =
      (GenOutcome.success "4",
       [WireEvent.connectAttempt,
        WireEvent.sent (dumpsRequest "2+2?" (fillParams defaultConfig {}) ++ "\n")]) ∧
    dumpsRequest "2+2?" (fillParams defaultConfig {}) =
      "\x7b\"prompt\": \"2+2?\", \"params\": \x7b\"temperature\": 0.7, \"top_k\": 40, \"top_p\": 0.9, \"max_tokens\": 512, \"repeat_penalty\": 1.1\x7d\x7d" ∧
    (dumpsRequest "2+2?" (fillParams defaultConfig {})).data.contains '\n' = false := by
  refine ⟨?_, ?_, ?_⟩
  · rfl
  · rfl
  · rfl

/- ===================================================================
   C9 — a reply object without a text field.
   =================================================================== -/

/-- C9: when the peer's reply parses as a JSON object with no `text`
member, `generate` on a ready manager succeeds with the empty string —
`response.get("text", "")` makes a missing completion indistinguishable
from an empty one. -/
theorem c9_missing_text_yields_empty (cfg : Config) (st : MMState) (env : NetEnv)
    (prompt : String) (a : GenArgs) (fields : List (String × Json))
    (hready : st.is_ready = true) (hcn : env.connect_ok = true)
    (ht : env.request_times_out = false)
    (hparse : json_loads (pyStrip (recvUntilNewline env.replyChunks "")) =
      some (Json.obj fields))
    (hmiss : jsonObjGet fields "text" = Option.none) :
    (ModelManager.generate cfg st env prompt a).1 = GenOutcome.success "" := by
  unfold ModelManager.generate ModelManager.send_request
  simp [hready, hcn, ht, hparse, hmiss]

/-- Witness for C9: a reply `\x7b"status": "ok"\x7d` yields the empty
string. -/
theorem c9_witness :
    (ModelManager.generate defaultConfig
      { process := some 7, is_running := true, is_ready := true }
      { replyChunks := ["\x7b\"status\": \"ok\"\x7d\n"] } "hi" {}).1 =
      GenOutcome.success "" :=
  c9_missing_text_yields_empty defaultConfig
    { process := some 7, is_running := true, is_ready := true }
    { replyChunks := ["\x7b\"status\": \"ok\"\x7d\n"] } "hi" {}
    [("status", Json.str "ok")] rfl rfl rfl rfl rfl

end Qwen
